import Mathlib

/-
  Verification of the fun-writing-gcp moderation-and-generation pipeline
  (cloud-run-ai-agents/python_agents): a shallow embedding of the safety
  evaluators, the writing scorer, the media-prompt generators and the
  JSON-contract extraction they share, together with proofs of the
  behavioural properties stated in the specification.

  Conventions of the embedding:
  * Python `json.loads` output is modelled by the inductive type `Json`
    (numbers are restricted to integers, which covers every value the
    pipeline manipulates; a float or `\uXXXX` escape in a model response is
    outside the model).
  * A Python function that may raise is modelled with `Option`/`Except` or
    with an explicit error constructor mirroring the `except` branch that
    catches the exception in the source.
  * Calls to the generative model are a black box; they are modelled by the
    `ModelOutcome` argument of each pipeline function: `.ok text` is a
    response, `.err msg` is a raised transport/upstream error.
-/

namespace FunWriting

/-- JSON values as returned by `json.loads` (integers only). -/
inductive Json where
  | null
  | bool (b : Bool)
  | num (n : Int)
  | str (s : String)
  | arr (elems : List Json)
  | obj (fields : List (String × Json))
deriving Repr

/-- Python truthiness (`if not x`) for JSON values: `None`, `False`, `0`,
`""`, `[]` and `{}` are falsy. -/
def Json.pyTruthy : Json → Bool
  | .null => false
  | .bool b => b
  | .num n => n != 0
  | .str s => s != ""
  | .arr xs => !xs.isEmpty
  | .obj fs => !fs.isEmpty

/-- Python `len(x)` on a JSON value: defined for strings, lists and dicts,
raises `TypeError` (modelled by `none`) otherwise. -/
def Json.pyLen : Json → Option Nat
  | .str s => some s.length
  | .arr xs => some xs.length
  | .obj fs => some fs.length
  | _ => none

/-- Dictionary lookup: `d[k]` / `d.get(k)` on a parsed JSON object.
`json.loads` keeps the last binding of a duplicated key, hence `getLast?`. -/
def getField (fields : List (String × Json)) (k : String) : Option Json :=
  ((fields.filter (fun p => p.1 == k)).getLast?).map (fun p => p.2)

/-- Python `d.get(k, default)`. -/
def getD (fields : List (String × Json)) (k : String) (d : Json) : Json :=
  (getField fields k).getD d

/-- Python `k in d` (key membership). -/
def hasKey (fields : List (String × Json)) (k : String) : Bool :=
  fields.any (fun p => p.1 == k)

/-! ### Strings: Python `.strip()` and the markdown-fence cleanup -/

/-- Drop whitespace from both ends of a character list. -/
def stripChars (cs : List Char) : List Char :=
  ((cs.dropWhile Char.isWhitespace).reverse.dropWhile Char.isWhitespace).reverse

/-- Python `str.strip()` with no arguments: drop whitespace from both ends. -/
def pyStrip (s : String) : String :=
  ⟨stripChars s.data⟩

/-- The markdown code-fence cleanup repeated in every tool:
strip a leading fence (7 characters when the text starts with the tagged
fence, else 3 characters when it starts with a bare fence), then strip a
trailing bare fence.  Note that only the tag `json` is recognised: any other
language tag loses its three backticks but keeps the tag text. -/
def fenceClean (cs : List Char) : List Char :=
  let s1 := if List.isPrefixOf "```json".data cs then cs.drop 7
            else if List.isPrefixOf "```".data cs then cs.drop 3
            else cs
  if List.isSuffixOf "```".data s1 then s1.take (s1.length - 3) else s1

/-- The full response cleanup every tool applies before `json.loads`:
`text.strip()`, fence removal, `strip()` again. -/
def cleanResponse (raw : String) : String :=
  ⟨stripChars (fenceClean (stripChars raw.data))⟩

/-! ### A JSON parser modelling `json.loads`

One fuelled recursive function handles values, array tails, object tails and
string bodies; `parseJson` wraps it and requires the whole input to be
consumed, as `json.loads` does. -/

/-- Parsing modes of the fuelled parser. -/
inductive PMode where
  | val      -- one JSON value
  | arrRest  -- the elements of an array, from just after `[` (or a comma)
  | objRest  -- the members of an object, from just after the brace (or a comma)
  | strBody  -- the body of a string, from just after the opening quote
deriving Repr, DecidableEq

/-- Results of the fuelled parser, one constructor per mode. -/
inductive PRes where
  | v (j : Json)
  | vs (js : List Json)
  | fs (fields : List (String × Json))
  | chars (cs : List Char)
deriving Repr

/-- The opening brace character (written via its code point). -/
def lbrace : Char := Char.ofNat 123

/-- The closing brace character (written via its code point). -/
def rbrace : Char := Char.ofNat 125

/-- JSON insignificant whitespace (the four characters `json` accepts). -/
def isJsonWs (c : Char) : Bool :=
  [' ', '\t', '\n', '\r'].contains c

/-- Drop leading JSON whitespace. -/
def skipWs (cs : List Char) : List Char :=
  cs.dropWhile isJsonWs

/-- The JSON two-character string escapes `\c` and what each stands for
(`\uXXXX` escapes are outside this model). -/
def escTable : List (Char × Char) :=
  [('"', '"'), ('\\', '\\'), ('/', '/'), ('n', '\n'), ('t', '\t'),
   ('r', '\r'), ('b', Char.ofNat 8), ('f', Char.ofNat 12)]

/-- Decode a JSON string escape `\c`. -/
def escChar (c : Char) : Option Char :=
  escTable.lookup c

/-- Digits to a natural number. -/
def digitsToNat (ds : List Char) : Nat :=
  ds.foldl (fun a c => a * 10 + (c.toNat - 48)) 0

/-- The fuelled parser. -/
def parseF : Nat → PMode → List Char → Option (PRes × List Char)
  | 0, _, _ => none
  | Nat.succ fuel, PMode.val, cs =>
    match skipWs cs with
    | 'n' :: 'u' :: 'l' :: 'l' :: rest => some (PRes.v Json.null, rest)
    | 't' :: 'r' :: 'u' :: 'e' :: rest => some (PRes.v (Json.bool true), rest)
    | 'f' :: 'a' :: 'l' :: 's' :: 'e' :: rest => some (PRes.v (Json.bool false), rest)
    | '"' :: rest =>
      match parseF fuel PMode.strBody rest with
      | some (PRes.chars s, r) => some (PRes.v (Json.str ⟨s⟩), r)
      | _ => none
    | '[' :: rest =>
      match parseF fuel PMode.arrRest rest with
      | some (PRes.vs js, r) => some (PRes.v (Json.arr js), r)
      | _ => none
    | c :: rest =>
      if c = lbrace then
        match parseF fuel PMode.objRest rest with
        | some (PRes.fs fs, r) => some (PRes.v (Json.obj fs), r)
        | _ => none
      else if c = '-' || c.isDigit then
        let (neg, cs1) := if c = '-' then (true, rest) else (false, c :: rest)
        let digits := cs1.takeWhile Char.isDigit
        let after := cs1.dropWhile Char.isDigit
        if digits.isEmpty then none
        else
          match after with
          | d :: _ =>
            if d == '.' || d == 'e' || d == 'E' then none
            else some (PRes.v (Json.num (if neg then -(digitsToNat digits : Int)
                                         else (digitsToNat digits : Int))), after)
          | [] => some (PRes.v (Json.num (if neg then -(digitsToNat digits : Int)
                                          else (digitsToNat digits : Int))), after)
      else none
    | [] => none
  | Nat.succ fuel, PMode.arrRest, cs =>
    match skipWs cs with
    | ']' :: rest => some (PRes.vs [], rest)
    | cs' =>
      match parseF fuel PMode.val cs' with
      | some (PRes.v j, r) =>
        match skipWs r with
        | ',' :: r2 =>
          (match skipWs r2 with
           | ']' :: _ => none    -- a trailing comma is invalid JSON
           | _ =>
             match parseF fuel PMode.arrRest r2 with
             | some (PRes.vs js, r3) => some (PRes.vs (j :: js), r3)
             | _ => none)
        | ']' :: r2 => some (PRes.vs [j], r2)
        | _ => none
      | _ => none
  | Nat.succ fuel, PMode.objRest, cs =>
    match skipWs cs with
    | c :: rest =>
      if c = rbrace then some (PRes.fs [], rest)
      else if c = '"' then
        match parseF fuel PMode.strBody rest with
        | some (PRes.chars ks, r) =>
          (match skipWs r with
           | ':' :: r2 =>
             (match parseF fuel PMode.val r2 with
              | some (PRes.v j, r3) =>
                (match skipWs r3 with
                 | ',' :: r4 =>
                   (match parseF fuel PMode.objRest r4 with
                    | some (PRes.fs [], _) => none  -- a trailing comma is invalid JSON
                    | some (PRes.fs fs, r5) => some (PRes.fs ((⟨ks⟩, j) :: fs), r5)
                    | _ => none)
                 | c2 :: r4 =>
                   if c2 = rbrace then some (PRes.fs [(⟨ks⟩, j)], r4) else none
                 | [] => none)
              | _ => none)
           | _ => none)
        | _ => none
      else none
    | [] => none
  | Nat.succ fuel, PMode.strBody, cs =>
    match cs with
    | [] => none
    | '"' :: rest => some (PRes.chars [], rest)
    | '\\' :: e :: rest =>
      (match escChar e with
       | some c =>
         (match parseF fuel PMode.strBody rest with
          | some (PRes.chars s, r) => some (PRes.chars (c :: s), r)
          | _ => none)
       | none => none)
    | c :: rest =>
      (match parseF fuel PMode.strBody rest with
       | some (PRes.chars s, r) => some (PRes.chars (c :: s), r)
       | _ => none)

/-- `json.loads`: parse one JSON document, requiring the whole input to be
consumed.  `none` models a raised `json.JSONDecodeError`. -/
def parseJson (s : String) : Option Json :=
  match parseF (2 * s.length + 8) PMode.val s.data with
  | some (PRes.v j, rest) => if (skipWs rest).isEmpty then some j else none
  | _ => none

/-! ### The model gateway

A call to the generative model either returns a response text or raises; the
raised message stands for `str(e)`. -/

/-- Outcome of one call to the generative model. -/
inductive ModelOutcome where
  | ok (text : String)
  | err (msg : String)
deriving Repr

/-- `adk/agents.py` `LlmAgent.run`: never raises.  On success it strips the
markdown fences from the response text; on any exception it returns the
response `json.dumps(\x7b"error": str(e), "success": False\x7d)` (rendered here
for messages that need no JSON string escaping). -/
def LlmAgent.run : ModelOutcome → String
  | .ok text => cleanResponse text
  | .err msg => "\x7b\"error\": \"" ++ msg ++ "\", \"success\": false\x7d"

/-! ### Safety verdicts -/

/-- The safety-verdict dictionary shape shared by the text and image
evaluators.  Every field is carried as the JSON value stored in the dict;
`alertMessage := Json.null` models Python `None`.  `visualDescription` is
only populated by the image evaluators (the text verdicts omit the key,
modelled as `Json.null`). -/
structure SafetyVerdict where
  isSafe : Json
  riskLevel : Json
  issues : Json
  recommendation : Json
  reasoning : Json
  alertMessage : Json
  visualDescription : Json
deriving Repr

/-! ### ContentSafetyEvaluator, tool path
(`tools/content_safety_tool.py`, `check_content_safety`) -/

/-- The dict returned by `check_content_safety`'s `except json.JSONDecodeError`
branch. -/
def contentSafetyJsonErrorVerdict : SafetyVerdict where
  isSafe := Json.bool false
  riskLevel := Json.str "unknown"
  issues := Json.arr []
  recommendation := Json.str "review"
  reasoning := Json.str "Safety check failed due to parsing error"
  alertMessage := Json.str "⚠️ Unable to verify content safety. Manual review required."
  visualDescription := Json.null

/-- The dict returned by `check_content_safety`'s generic `except Exception`
branch. -/
def contentSafetyGenericErrorVerdict (msg : String) : SafetyVerdict where
  isSafe := Json.bool false
  riskLevel := Json.str "unknown"
  issues := Json.arr []
  recommendation := Json.str "review"
  reasoning := Json.str ("Safety check encountered an error: " ++ msg)
  alertMessage := Json.str "⚠️ Safety check temporarily unavailable. Manual review required."
  visualDescription := Json.null

/-- The alert synthesised when the tool's verdict is unsafe, from the number
of issues. -/
def contentSafetyFlagAlert (issueCount : Nat) : String :=
  "⚠️ This content has been flagged for review. We found " ++
  toString issueCount ++ " potential " ++
  (if issueCount == 1 then "issue" else "issues") ++
  " that may not be appropriate for this age group."

/-- `check_content_safety`: clean the response, `json.loads` it, map fields
with defaults (`isSafe` defaults `True`, `riskLevel` `"none"`,
`recommendation` `"approve"`), then synthesise `alertMessage` from
`len(issues)` when the verdict is unsafe.  A raised model call lands in the
generic handler; a parse failure in the `JSONDecodeError` handler; a parsed
non-dict raises `AttributeError` at `result.get` and a non-sized `issues`
value raises `TypeError` at `len`, both landing in the generic handler. -/
def check_content_safety (o : ModelOutcome) : SafetyVerdict :=
  match o with
  | .err msg => contentSafetyGenericErrorVerdict msg
  | .ok text =>
    match parseJson (cleanResponse text) with
    | none => contentSafetyJsonErrorVerdict
    | some (Json.obj fields) =>
      let base : SafetyVerdict :=
        { isSafe := getD fields "isSafe" (Json.bool true)
          riskLevel := getD fields "riskLevel" (Json.str "none")
          issues := getD fields "issues" (Json.arr [])
          recommendation := getD fields "recommendation" (Json.str "approve")
          reasoning := getD fields "reasoning" (Json.str "Content appears safe")
          alertMessage := Json.null
          visualDescription := Json.null }
      if base.isSafe.pyTruthy then base
      else
        match base.issues.pyLen with
        | some n => { base with alertMessage := Json.str (contentSafetyFlagAlert n) }
        | none => contentSafetyGenericErrorVerdict "TypeError"
    | some _ => contentSafetyGenericErrorVerdict "AttributeError"

/-! ### ContentSafetyEvaluator, agent path
(`agents/content_safety_agent.py`, `ContentSafetyAgent`) -/

/-- `ContentSafetyAgent._create_error_response`: the fail-open synthetic
verdict (note `isSafe = True` together with a non-`None` alert). -/
def ContentSafetyAgent.createErrorResponse (message : String) : SafetyVerdict where
  isSafe := Json.bool true
  riskLevel := Json.str "unknown"
  issues := Json.arr []
  recommendation := Json.str "review"
  reasoning := Json.str "Safety check failed, manual review recommended"
  alertMessage := Json.str ("⚠️  " ++ message ++ " Your submission will be reviewed.")
  visualDescription := Json.null

/-- `ContentSafetyAgent.validate_content`: run the wrapped agent (which never
raises and pre-strips fences), `json.loads` its `.content`, map fields; the
model-supplied `alertMessage` is passed through unchanged.  A parse failure
lands in the `JSONDecodeError` handler; a parsed non-dict raises
`AttributeError`, landing in the generic handler. -/
def ContentSafetyAgent.validateContent (o : ModelOutcome) : SafetyVerdict :=
  match parseJson (LlmAgent.run o) with
  | none =>
    ContentSafetyAgent.createErrorResponse
      "Failed to parse safety analysis. Manual review recommended."
  | some (Json.obj fields) =>
    { isSafe := getD fields "isSafe" (Json.bool true)
      riskLevel := getD fields "riskLevel" (Json.str "none")
      issues := getD fields "issues" (Json.arr [])
      recommendation := getD fields "recommendation" (Json.str "approve")
      reasoning := getD fields "reasoning" (Json.str "Content appears appropriate")
      alertMessage := getD fields "alertMessage" Json.null
      visualDescription := Json.null }
  | some _ =>
    ContentSafetyAgent.createErrorResponse
      "Safety check encountered an error: AttributeError"

/-! ### ImageSafetyEvaluator
(`tools/image_safety_tool.py` and `agents/image_safety_agent.py`)

An image evaluation first downloads the URL, then decodes the bytes with
PIL, then calls the vision model; `ImageEvalInput` records where the
pipeline stopped, or the model's response text. -/

/-- Input of one image safety evaluation. -/
inductive ImageEvalInput where
  | downloadErr (msg : String)
  | decodeErr (msg : String)
  | modelErr (msg : String)
  | response (text : String)
deriving Repr

/-- The dict returned by `validate_image_safety`'s `except json.JSONDecodeError`
branch. -/
def imageSafetyJsonErrorVerdict : SafetyVerdict where
  isSafe := Json.bool false
  riskLevel := Json.str "unknown"
  issues := Json.arr []
  recommendation := Json.str "review"
  reasoning := Json.str "Safety validation failed due to parsing error"
  alertMessage := Json.str "⚠️ Unable to verify image safety. Manual review required."
  visualDescription := Json.null

/-- The dict returned by `validate_image_safety`'s generic `except Exception`
branch. -/
def imageSafetyGenericErrorVerdict (msg : String) : SafetyVerdict where
  isSafe := Json.bool false
  riskLevel := Json.str "unknown"
  issues := Json.arr []
  recommendation := Json.str "review"
  reasoning := Json.str ("Safety validation encountered an error: " ++ msg)
  alertMessage := Json.str "⚠️ Safety check temporarily unavailable. Manual review required."
  visualDescription := Json.null

/-- The fixed alert the tool attaches to an unsafe image verdict. -/
def imageFlagAlert : String :=
  "⚠️ This image has been flagged and will be reviewed. " ++
  "It may contain content that isn't appropriate for this age group."

/-- `validate_image_safety`: download and decode failures and a raised model
call all land in the generic handler; otherwise clean the response,
`json.loads` it, map fields with defaults and attach the fixed alert when the
verdict is unsafe.  A parsed non-dict raises `AttributeError`, landing in the
generic handler. -/
def validate_image_safety (inp : ImageEvalInput) : SafetyVerdict :=
  match inp with
  | .downloadErr msg => imageSafetyGenericErrorVerdict msg
  | .decodeErr msg => imageSafetyGenericErrorVerdict msg
  | .modelErr msg => imageSafetyGenericErrorVerdict msg
  | .response text =>
    match parseJson (cleanResponse text) with
    | none => imageSafetyJsonErrorVerdict
    | some (Json.obj fields) =>
      let base : SafetyVerdict :=
        { isSafe := getD fields "isSafe" (Json.bool true)
          riskLevel := getD fields "riskLevel" (Json.str "none")
          issues := getD fields "issues" (Json.arr [])
          recommendation := getD fields "recommendation" (Json.str "approve")
          reasoning := getD fields "reasoning" (Json.str "Image appears appropriate")
          alertMessage := Json.null
          visualDescription := getD fields "visualDescription" (Json.str "") }
      if base.isSafe.pyTruthy then base
      else { base with alertMessage := Json.str imageFlagAlert }
    | some _ => imageSafetyGenericErrorVerdict "AttributeError"

/-- `ImageSafetyAgent._create_error_response`: the fail-closed synthetic
verdict (`isSafe = False`, the inverse of the text agent's). -/
def ImageSafetyAgent.createErrorResponse (message : String) : SafetyVerdict where
  isSafe := Json.bool false
  riskLevel := Json.str "unknown"
  issues := Json.arr []
  recommendation := Json.str "review"
  reasoning := Json.str "Image safety check failed, manual review required"
  alertMessage := Json.str ("⚠️  " ++ message ++ " This image will be reviewed before display.")
  visualDescription := Json.null

/-- `ImageSafetyAgent.validate_image`: every failed step returns
`_create_error_response`; a successful vision call is `json.loads`ed
directly (no fence cleanup in this path) and mapped with defaults, passing
the model-supplied `alertMessage` through. -/
def ImageSafetyAgent.validateImage (inp : ImageEvalInput) : SafetyVerdict :=
  match inp with
  | .downloadErr _ =>
    ImageSafetyAgent.createErrorResponse "Failed to download image for analysis"
  | .decodeErr msg =>
    ImageSafetyAgent.createErrorResponse ("Failed to load image: " ++ msg)
  | .modelErr msg =>
    ImageSafetyAgent.createErrorResponse ("Image safety check encountered an error: " ++ msg)
  | .response text =>
    match parseJson text with
    | none =>
      ImageSafetyAgent.createErrorResponse "Failed to parse image safety analysis"
    | some (Json.obj fields) =>
      { isSafe := getD fields "isSafe" (Json.bool true)
        riskLevel := getD fields "riskLevel" (Json.str "none")
        issues := getD fields "issues" (Json.arr [])
        recommendation := getD fields "recommendation" (Json.str "approve")
        reasoning := getD fields "reasoning" (Json.str "Image appears appropriate")
        alertMessage := getD fields "alertMessage" Json.null
        visualDescription := getD fields "visualDescription" (Json.str "") }
    | some _ =>
      ImageSafetyAgent.createErrorResponse
        "Image safety check encountered an error: AttributeError"

/-- Result of `ImageSafetyAgent.validate_image_batch`: either the aggregate
dict with its per-image results, or the dict of the batch `except` branch,
which carries no results list. -/
inductive BatchResult where
  | ok (allSafe : Bool) (totalImages : Nat) (flaggedImages : Nat) (totalIssues : Nat)
       (results : List SafetyVerdict)
  | errored (msg : String)
deriving Repr

/-- The results list of a batch outcome, when one was returned. -/
def BatchResult.resultsList : BatchResult → Option (List SafetyVerdict)
  | .ok _ _ _ _ results => some results
  | .errored _ => none

/-- `sum(len(r["issues"]) for r in results)`: `none` models the `TypeError`
raised when some verdict's `issues` value has no `len`. -/
def sumIssueLens (results : List SafetyVerdict) : Option Nat :=
  (results.mapM (fun (r : SafetyVerdict) => r.issues.pyLen)).map List.sum

/-- `ImageSafetyAgent.validate_image_batch`: evaluate every input in order
(`validate_image` itself never raises, so one failing image cannot stop the
loop), then aggregate `allSafe`, the flagged count and the issue total.  The
aggregation's `len` call raises when an `issues` value is not sized, landing
in the batch's own `except` branch which returns no results list. -/
def validate_image_batch (inputs : List ImageEvalInput) : BatchResult :=
  let results := inputs.map ImageSafetyAgent.validateImage
  let allSafe := results.all (fun r => r.isSafe.pyTruthy)
  match sumIssueLens results with
  | some totalIssues =>
    BatchResult.ok allSafe inputs.length
      (results.countP (fun r => !r.isSafe.pyTruthy)) totalIssues results
  | none => BatchResult.errored "TypeError"

/-! ### WritingScorer (`tools/feedback_tool.py`, `analyze_student_writing`) -/

/-- Clamp a dimension score into `[0, 25]`: `max(0, min(25, x))`. -/
def clamp25 (x : Int) : Int := max 0 (min 25 x)

/-- A JSON value usable as a score operand of Python's `min`/`max`
(`bool` is an `int` subtype in Python); `none` models the `TypeError`
raised for anything else. -/
def scoreVal : Json → Option Int
  | Json.num n => some n
  | Json.bool b => some (if b then 1 else 0)
  | _ => none

/-- `result.get(dim, \x7b\x7d).get("score", dflt)`: the dimension-specific
default is used when the `score` key is absent; a non-dict dimension value
raises `AttributeError` at the inner `.get` (modelled by `none`). -/
def dimScore (fields : List (String × Json)) (dim : String) (dflt : Int) : Option Int :=
  match getD fields dim (Json.obj []) with
  | Json.obj d =>
    match getField d "score" with
    | none => some dflt
    | some v => scoreVal v
  | _ => none

/-- `result.get(dim, \x7b\x7d).get(key, dflt)` for the per-dimension feedback
strings (only reached on paths where the dimension value is a dict or
absent). -/
def dimField (fields : List (String × Json)) (dim key : String) (dflt : Json) : Json :=
  match getD fields dim (Json.obj []) with
  | Json.obj d => getD d key dflt
  | _ => dflt

/-- `_generate_general_comment`: the fallback comment from the score band. -/
def generateGeneralComment (score : Int) : String :=
  if score ≥ 90 then
    "🌟 Excellent work! Your writing is outstanding. You demonstrate strong skills across all areas."
  else if score ≥ 75 then
    "👏 Great job! Your writing shows solid skills and creativity. Keep up the excellent work!"
  else if score ≥ 60 then
    "📈 Good work! You're making progress. With some practice, you'll improve even more."
  else if score ≥ 50 then
    "💪 Nice effort! Keep practicing and focusing on the areas for improvement."
  else
    "📚 Good start! This is a learning journey. Review the feedback and try again!"

/-- The feedback dict built by `analyze_student_writing` on success. -/
structure WritingFeedback where
  totalScore : Int
  grammarScore : Int
  spellingScore : Int
  relevanceScore : Int
  creativityScore : Int
  grammarFeedback : Json
  spellingFeedback : Json
  relevanceFeedback : Json
  creativityFeedback : Json
  strengths : Json
  areasForImprovement : Json
  generalComment : Json
  nextSteps : Json
deriving Repr

/-- The score-and-feedback extraction of `analyze_student_writing` (lines
160-192): read each dimension's score with its dimension-specific default
(grammar 15, spelling 18, relevance 16, creativity 17), clamp it into
`[0, 25]`, sum the four clamped scores into `totalScore`, and default the
remaining fields.  `none` models the `AttributeError`/`TypeError` raised on
a non-dict dimension or non-numeric score, which the tool's `except` branch
turns into a failure result. -/
def buildWritingFeedback (fields : List (String × Json)) : Option WritingFeedback := do
  let g ← dimScore fields "grammar" 15
  let s ← dimScore fields "spelling" 18
  let r ← dimScore fields "relevance" 16
  let c ← dimScore fields "creativity" 17
  let gs := clamp25 g
  let ss := clamp25 s
  let rs := clamp25 r
  let cs := clamp25 c
  let total := gs + ss + rs + cs
  pure
    { totalScore := total
      grammarScore := gs
      spellingScore := ss
      relevanceScore := rs
      creativityScore := cs
      grammarFeedback := dimField fields "grammar" "feedback" (Json.str "Good grammar overall")
      spellingFeedback := dimField fields "spelling" "feedback" (Json.str "Good spelling overall")
      relevanceFeedback := dimField fields "relevance" "feedback" (Json.str "Good relevance overall")
      creativityFeedback := dimField fields "creativity" "feedback" (Json.str "Good creativity overall")
      strengths := getD fields "strengths" (Json.arr [])
      areasForImprovement := getD fields "areasForImprovement" (Json.arr [])
      generalComment := getD fields "generalComment" (Json.str (generateGeneralComment total))
      nextSteps := getD fields "nextSteps" (Json.arr []) }

/-- Result dict of `analyze_student_writing`: the safety-blocked early
return, the success dict, or the failure dict of the `except` branches
(`success: False` with an `error` message and no feedback). -/
inductive AnalyzeResult where
  | blocked (safetyCheck : SafetyVerdict) (alertMessage : Json) (recommendation : Json)
  | scored (score : Int) (feedback : WritingFeedback) (safetyCheck : SafetyVerdict)
  | failed (error : String) (safetyCheck : SafetyVerdict)
deriving Repr

/-- Whether an analysis result is the failure dict. -/
def AnalyzeResult.isFailed : AnalyzeResult → Bool
  | .failed _ _ => true
  | _ => false

/-- `analyze_student_writing`: Step 1 runs `check_content_safety`; when the
verdict is unsafe it returns the blocked dict at once — the scoring model is
never consulted.  Otherwise Step 2 calls the model (`scoringO`), cleans and
`json.loads`es the response and builds the feedback; every scoring failure
(raised call, parse failure, non-dict result, bad dimension value) lands in
an `except` branch returning the failure dict. -/
def analyze_student_writing (safetyO scoringO : ModelOutcome) : AnalyzeResult :=
  let sr := check_content_safety safetyO
  if !sr.isSafe.pyTruthy then
    AnalyzeResult.blocked sr sr.alertMessage sr.recommendation
  else
    match scoringO with
    | .err msg => AnalyzeResult.failed msg sr
    | .ok text =>
      match parseJson (cleanResponse text) with
      | none => AnalyzeResult.failed "Failed to parse evaluation results: JSONDecodeError" sr
      | some (Json.obj fields) =>
        match buildWritingFeedback fields with
        | some fb => AnalyzeResult.scored fb.totalScore fb sr
        | none => AnalyzeResult.failed "TypeError" sr
      | some _ => AnalyzeResult.failed "AttributeError" sr

/-- Whether the scoring step of `analyze_student_writing` fails (assuming the
safety gate passed): a raised model call, an unparseable response, a
non-dict response, or a bad dimension value. -/
def scoringStepFails (o : ModelOutcome) : Bool :=
  match o with
  | .err _ => true
  | .ok t =>
    match parseJson (cleanResponse t) with
    | none => true
    | some (Json.obj fields) => (buildWritingFeedback fields).isNone
    | some _ => true

/-! ### The `/analyze-writing` endpoint (`main.py`, `analyze_writing`) -/

/-- The JSON response of `POST /analyze-writing` with its HTTP status.
`blocked` is `result.get("blocked", False)`; the failure dict's `error`
message is not copied into the body, and the 500 `HTTPException` branch is
only reachable when the tool itself raises — which `analyze_student_writing`
never does, as both its `except` branches return dicts. -/
structure AnalyzeHttpResponse where
  status : Nat
  success : Bool
  blocked : Bool
  safetyCheck : SafetyVerdict
  alertMessage : Json
  recommendation : Json
  score : Option Int
  feedback : Option WritingFeedback
  errorBody : Option String
deriving Repr

/-- `analyze_writing` (`main.py` lines 126-182). -/
def analyze_writing_endpoint (safetyO scoringO : ModelOutcome) : AnalyzeHttpResponse :=
  match analyze_student_writing safetyO scoringO with
  | .blocked sr alert rec =>
    { status := 200, success := false, blocked := true, safetyCheck := sr
      alertMessage := alert, recommendation := rec
      score := none, feedback := none, errorBody := none }
  | .failed _ sr =>
    { status := 200, success := false, blocked := false, safetyCheck := sr
      alertMessage := Json.null, recommendation := Json.null
      score := none, feedback := none, errorBody := none }
  | .scored score fb sr =>
    { status := 200, success := true, blocked := false, safetyCheck := sr
      alertMessage := Json.null, recommendation := Json.null
      score := some score, feedback := some fb, errorBody := none }

/-! ### MediaPromptGenerator, agent path
(`agents/visual_media_agent.py`, `generate_image_prompt` /
`generate_video_prompt`)

Both methods share one shape and differ only in the JSON key they read
(`"prompt"` vs `"videoActionPrompt"`); `Except.error` models a raised
exception. -/

/-- The shared body of the two prompt-extraction methods: parse the agent
response, raise when it reports an error (`success` falsy or an `error`
key), read the expected key with default `""`, raise when the value is not a
string, raise when it is empty, and otherwise return it. -/
def VisualMediaAgent.extractPromptField (key : String) (o : ModelOutcome) :
    Except String String :=
  match parseJson (LlmAgent.run o) with
  | none => Except.error "Agent returned invalid JSON"
  | some (Json.obj fields) =>
    if !(getD fields "success" (Json.bool true)).pyTruthy || hasKey fields "error" then
      Except.error "prompt generation failed"
    else
      match getD fields key (Json.str "") with
      | Json.str s =>
        if s = "" then Except.error "Empty prompt returned from agent"
        else Except.ok s
      | _ => Except.error "Invalid prompt type"
  | some _ => Except.error "AttributeError"

/-- `VisualMediaAgent.generate_image_prompt`. -/
def VisualMediaAgent.generateImagePrompt (o : ModelOutcome) : Except String String :=
  VisualMediaAgent.extractPromptField "prompt" o

/-- `VisualMediaAgent.generate_video_prompt`. -/
def VisualMediaAgent.generateVideoPrompt (o : ModelOutcome) : Except String String :=
  VisualMediaAgent.extractPromptField "videoActionPrompt" o

/-! ### MediaPromptGenerator, tool path
(`tools/image_generation_tool.py` and `tools/video_generation_tool.py`) -/

/-- `_generate_image_prompt` / `_generate_video_prompt`: clean the response,
`json.loads` it and return `result.get(key, "")` — whatever JSON value that
is.  A raised model call or parse failure propagates (`Except.error`), as
does the `AttributeError` of `.get` on a non-dict. -/
def toolPromptField (key : String) (o : ModelOutcome) : Except String Json :=
  match o with
  | .err msg => Except.error msg
  | .ok text =>
    match parseJson (cleanResponse text) with
    | none => Except.error "JSONDecodeError"
    | some (Json.obj fields) => Except.ok (getD fields key (Json.str ""))
    | some _ => Except.error "AttributeError"

/-- How far `generate_image_from_writing` / `generate_video_from_writing`
get before the downstream generation call: `failedBeforeGen` is the outer
`except` branch (a `success: False` dict), `calledGen p` means Step 2's
generation request was issued with prompt value `p`. -/
inductive GenDispatch where
  | failedBeforeGen (err : String)
  | calledGen (prompt : Json)
deriving Repr

/-- The prompt-validation prefix shared by both generation tools: raise when
the prompt is falsy (`if not prompt`), then evaluate `len(prompt)` for the
log line — which raises `TypeError` on unsized values — and then issue the
generation call with the prompt value, string or not. -/
def genDispatch (failMsg : String) (extracted : Except String Json) : GenDispatch :=
  match extracted with
  | Except.error msg => GenDispatch.failedBeforeGen msg
  | Except.ok p =>
    if !p.pyTruthy then GenDispatch.failedBeforeGen failMsg
    else
      match p.pyLen with
      | none => GenDispatch.failedBeforeGen "TypeError"
      | some _ => GenDispatch.calledGen p

/-- `generate_image_from_writing` up to the Gemini image call (Step 2). -/
def generate_image_from_writing (o : ModelOutcome) : GenDispatch :=
  genDispatch "Failed to generate image prompt" (toolPromptField "prompt" o)

/-- `generate_video_from_writing` up to the Veo call (Step 2). -/
def generate_video_from_writing (o : ModelOutcome) : GenDispatch :=
  genDispatch "Failed to generate video prompt" (toolPromptField "videoActionPrompt" o)

/-! ### Scene-focus selection
(`_generate_image_prompt` in `tools/image_generation_tool.py` and
`VisualMediaAgent.generate_image_prompt`; both contain the same list and the
same index expression) -/

/-- The fixed ordered list of six scene-focus descriptions. -/
def scene_descriptions : List String :=
  [ "the opening scene or setting",
    "a key moment or action in the middle",
    "the climax or most exciting part",
    "the resolution or ending",
    "an important character or creature",
    "a magical or special object mentioned" ]

/-- Python list subscription `xs[i]`: non-negative indexes from the front,
indexes in `[-len, -1]` from the back, anything else raises `IndexError`
(modelled by `none`). -/
def pyListGet (xs : List String) (i : Int) : Option String :=
  if 0 ≤ i ∧ i < (xs.length : Int) then xs.get? i.toNat
  else if -(xs.length : Int) ≤ i ∧ i < 0 then xs.get? (i + (xs.length : Int)).toNat
  else none

/-- `scene_descriptions[min(image_index - 1, len(scene_descriptions) - 1)]`. -/
def sceneFocus (image_index : Int) : Option String :=
  pyListGet scene_descriptions (min (image_index - 1) 5)

/-! ### The JSON-contract extraction step, viewed on its own

Every tool runs the same three steps on a model response: the fence cleanup,
`json.loads`, and use of the result as a dict.  `extractJson` names that
shared pipeline and classifies its outcome; the callers above each map the
two failure outcomes into their own `except` branches. -/

/-- Whether a JSON value is an object. -/
def Json.isObj : Json → Bool
  | Json.obj _ => true
  | _ => false

/-- Outcome of the shared extraction pipeline. -/
inductive ExtractOutcome where
  | okObj (fields : List (String × Json))
  | notObject (j : Json)
  | parseError
deriving Repr

/-- The shared extraction pipeline: cleanup, parse, require an object. -/
def extractJson (raw : String) : ExtractOutcome :=
  match parseJson (cleanResponse raw) with
  | none => ExtractOutcome.parseError
  | some (Json.obj fields) => ExtractOutcome.okObj fields
  | some j => ExtractOutcome.notObject j

/-! ### Shapes used by the statements below -/

/-- The fail-closed verdict shape of the image evaluators' failure paths:
unsafe, unknown risk, review recommended, with a non-`None` alert. -/
def failClosedShape (v : SafetyVerdict) : Prop :=
  v.isSafe = Json.bool false ∧ v.riskLevel = Json.str "unknown" ∧
  v.recommendation = Json.str "review" ∧ v.alertMessage ≠ Json.null

/-- Whether one image evaluation fails in the agent path: a failed download,
decode or model call, or a response that is not a JSON object. -/
def imageEvalFails : ImageEvalInput → Bool
  | .downloadErr _ => true
  | .decodeErr _ => true
  | .modelErr _ => true
  | .response t =>
    match parseJson t with
    | none => true
    | some (Json.obj _) => false
    | some _ => true

/-- A prompt-field value the generators are required to reject: absent
(defaulted to `""`), empty, or not a string. -/
def nonStringOrEmpty : Json → Bool
  | Json.str s => s == ""
  | _ => true

/-! ## Helper lemmas -/

/-- A clamped dimension score lies in `[0, 25]`. -/
theorem clamp25_bounds (x : Int) : 0 ≤ clamp25 x ∧ clamp25 x ≤ 25 := by
  unfold clamp25
  omega

/-- Looking up a key ignores a prepended binding with a different key. -/
theorem getField_cons_ne (k0 : String) (v : Json) (fields : List (String × Json))
    (k : String) (h : (k0 == k) = false) :
    getField ((k0, v) :: fields) k = getField fields k := by
  simp [getField, List.filter, h]

/-- `ImageSafetyAgent._create_error_response` always builds a fail-closed
verdict. -/
theorem createErrorResponse_failClosed (m : String) :
    failClosedShape (ImageSafetyAgent.createErrorResponse m) :=
  ⟨rfl, rfl, rfl, fun h => Json.noConfusion h⟩

/-- The tool's generic error verdict is fail-closed. -/
theorem imageGeneric_failClosed (m : String) :
    failClosedShape (imageSafetyGenericErrorVerdict m) :=
  ⟨rfl, rfl, rfl, fun h => Json.noConfusion h⟩

/-- The tool's parse-error verdict is fail-closed. -/
theorem imageJsonError_failClosed : failClosedShape imageSafetyJsonErrorVerdict :=
  ⟨rfl, rfl, rfl, fun h => Json.noConfusion h⟩

/-- Every failing image evaluation produces a fail-closed verdict in the
agent path. -/
theorem validateImage_failClosed (inp : ImageEvalInput)
    (h : imageEvalFails inp = true) :
    failClosedShape (ImageSafetyAgent.validateImage inp) := by
  cases inp with
  | downloadErr m => exact createErrorResponse_failClosed _
  | decodeErr m => exact createErrorResponse_failClosed _
  | modelErr m => exact createErrorResponse_failClosed _
  | response t =>
    unfold imageEvalFails at h
    unfold ImageSafetyAgent.validateImage
    dsimp only at h ⊢
    rcases hp : parseJson t with _ | j
    · exact createErrorResponse_failClosed _
    · rw [hp] at h
      cases j with
      | obj fields => exact Bool.noConfusion h
      | null => exact createErrorResponse_failClosed _
      | bool b => exact createErrorResponse_failClosed _
      | num n => exact createErrorResponse_failClosed _
      | str s => exact createErrorResponse_failClosed _
      | arr xs => exact createErrorResponse_failClosed _

/-! ## C1 — failure policy of the text safety evaluation -/

/-- C1, counterexample.  The claim says a failed text safety evaluation
returns a synthetic verdict with `isSafe = true` (fail-open).  But
`check_content_safety` — the evaluator the served analyze-writing flow uses —
returns `isSafe = False` from both of its error handlers: on the unparseable
response `"not json"` the verdict has `isSafe = false`, not `true`. -/
theorem claim1_counterexample :
    (check_content_safety (ModelOutcome.ok "not json")).isSafe ≠ Json.bool true ∧
    (check_content_safety (ModelOutcome.ok "not json")).isSafe = Json.bool false ∧
    (check_content_safety (ModelOutcome.ok "not json")).riskLevel = Json.str "unknown" ∧
    (check_content_safety (ModelOutcome.ok "not json")).recommendation = Json.str "review" :=
  ⟨fun h => Json.noConfusion h (fun hb => Bool.noConfusion hb), rfl, rfl, rfl⟩

/-- C1, amended.  The two text safety evaluators disagree.  The tool
`check_content_safety` (used by `analyze_student_writing`) is fail-closed:
an upstream model error or a parse failure yields `isSafe=false`,
`riskLevel="unknown"`, `recommendation="review"`.  The agent
`ContentSafetyAgent.validate_content` is fail-open with `isSafe=true`,
`riskLevel="unknown"`, `recommendation="review"` — but only on a parse
failure: an upstream model error is swallowed by the `LlmAgent.run` wrapper
into an error-JSON response that parses, so the agent returns the
all-default verdict `isSafe=true`, `riskLevel="none"`,
`recommendation="approve"` with no alert at all. -/
theorem claim1_amended_failure_policy (m t : String)
    (hm : parseJson (LlmAgent.run (ModelOutcome.err m)) =
          some (Json.obj [("error", Json.str m), ("success", Json.bool false)]))
    (ht : parseJson (cleanResponse t) = none) :
    check_content_safety (ModelOutcome.err m) = contentSafetyGenericErrorVerdict m ∧
    (check_content_safety (ModelOutcome.err m)).isSafe = Json.bool false ∧
    (check_content_safety (ModelOutcome.err m)).riskLevel = Json.str "unknown" ∧
    (check_content_safety (ModelOutcome.err m)).recommendation = Json.str "review" ∧
    check_content_safety (ModelOutcome.ok t) = contentSafetyJsonErrorVerdict ∧
    ContentSafetyAgent.validateContent (ModelOutcome.ok t) =
      ContentSafetyAgent.createErrorResponse
        "Failed to parse safety analysis. Manual review recommended." ∧
    (ContentSafetyAgent.validateContent (ModelOutcome.ok t)).isSafe = Json.bool true ∧
    (ContentSafetyAgent.validateContent (ModelOutcome.ok t)).riskLevel = Json.str "unknown" ∧
    (ContentSafetyAgent.validateContent (ModelOutcome.ok t)).recommendation = Json.str "review" ∧
    (ContentSafetyAgent.validateContent (ModelOutcome.err m)).isSafe = Json.bool true ∧
    (ContentSafetyAgent.validateContent (ModelOutcome.err m)).riskLevel = Json.str "none" ∧
    (ContentSafetyAgent.validateContent (ModelOutcome.err m)).recommendation = Json.str "approve" ∧
    (ContentSafetyAgent.validateContent (ModelOutcome.err m)).alertMessage = Json.null := by
  have htool : check_content_safety (ModelOutcome.ok t) = contentSafetyJsonErrorVerdict := by
    unfold check_content_safety
    dsimp only
    rw [ht]
  have hagent : ContentSafetyAgent.validateContent (ModelOutcome.ok t) =
      ContentSafetyAgent.createErrorResponse
        "Failed to parse safety analysis. Manual review recommended." := by
    unfold ContentSafetyAgent.validateContent LlmAgent.run
    dsimp only
    rw [ht]
  have hup : ContentSafetyAgent.validateContent (ModelOutcome.err m) =
      { isSafe := Json.bool true, riskLevel := Json.str "none", issues := Json.arr [],
        recommendation := Json.str "approve",
        reasoning := Json.str "Content appears appropriate",
        alertMessage := Json.null, visualDescription := Json.null } := by
    unfold ContentSafetyAgent.validateContent
    rw [hm]
    rfl
  refine ⟨rfl, rfl, rfl, rfl, htool, hagent, ?_, ?_, ?_, ?_, ?_, ?_, ?_⟩
  · rw [hagent]; rfl
  · rw [hagent]; rfl
  · rw [hagent]; rfl
  · rw [hup]
  · rw [hup]
  · rw [hup]
  · rw [hup]

/-- C1, witness: the amended statement at the concrete inputs `m = "boom"`
and `t = "not json"`. -/
theorem claim1_amended_witness :
    parseJson (LlmAgent.run (ModelOutcome.err "boom")) =
      some (Json.obj [("error", Json.str "boom"), ("success", Json.bool false)]) ∧
    parseJson (cleanResponse "not json") = none ∧
    ((check_content_safety (ModelOutcome.err "boom")).isSafe = Json.bool false ∧
     (ContentSafetyAgent.validateContent (ModelOutcome.ok "not json")).isSafe = Json.bool true ∧
     (ContentSafetyAgent.validateContent (ModelOutcome.err "boom")).recommendation =
       Json.str "approve") := by
  have h := claim1_amended_failure_policy "boom" "not json" rfl rfl
  exact ⟨rfl, rfl, h.2.1, h.2.2.2.2.2.2.1, h.2.2.2.2.2.2.2.2.2.2.2.1⟩

/-! ## C2 — the `isSafe = true → alertMessage is None` invariant -/

/-- C2, counterexample.  The claim says every verdict of either evaluator
with `isSafe = true` has `alertMessage = None`.  But
`ContentSafetyAgent._create_error_response` — reached for instance when the
agent's response does not parse — returns `isSafe = True` together with a
non-`None` alert. -/
theorem claim2_counterexample :
    (ContentSafetyAgent.validateContent (ModelOutcome.ok "not json")).isSafe = Json.bool true ∧
    (ContentSafetyAgent.validateContent (ModelOutcome.ok "not json")).alertMessage ≠ Json.null :=
  ⟨rfl, fun h => Json.noConfusion h⟩

/-- C2, amended.  The invariant holds for the two tool evaluators on every
path — whenever `check_content_safety` or `validate_image_safety` returns a
truthy `isSafe` (in particular `isSafe = true`), its `alertMessage` is
`None` — and the `ImageSafetyAgent` error path keeps it vacuously
(`isSafe = False`).  It is violated by the `ContentSafetyAgent` error path
(the counterexample), and the two agents' normal paths merely pass the
model-supplied `alertMessage` through. -/
theorem claim2_amended_invariant (o : ModelOutcome) (inp : ImageEvalInput) (m : String) :
    ((check_content_safety o).isSafe.pyTruthy = true →
      (check_content_safety o).alertMessage = Json.null) ∧
    ((validate_image_safety inp).isSafe.pyTruthy = true →
      (validate_image_safety inp).alertMessage = Json.null) ∧
    (ImageSafetyAgent.createErrorResponse m).isSafe = Json.bool false := by
  refine ⟨?_, ?_, rfl⟩
  · cases o with
    | err msg => exact fun h => Bool.noConfusion h
    | ok t =>
      unfold check_content_safety
      dsimp only
      rcases hp : parseJson (cleanResponse t) with _ | j
      · exact fun h => Bool.noConfusion h
      · cases j with
        | obj fields =>
          dsimp only
          by_cases hb : (getD fields "isSafe" (Json.bool true)).pyTruthy
          · rw [if_pos hb]
            exact fun _ => rfl
          · rw [if_neg hb]
            rcases hl : (getD fields "issues" (Json.arr [])).pyLen with _ | n
            · exact fun h => Bool.noConfusion h
            · intro h
              exact absurd h (by simpa using hb)
        | null => exact fun h => Bool.noConfusion h
        | bool b => exact fun h => Bool.noConfusion h
        | num n => exact fun h => Bool.noConfusion h
        | str s => exact fun h => Bool.noConfusion h
        | arr xs => exact fun h => Bool.noConfusion h
  · cases inp with
    | downloadErr msg => exact fun h => Bool.noConfusion h
    | decodeErr msg => exact fun h => Bool.noConfusion h
    | modelErr msg => exact fun h => Bool.noConfusion h
    | response t =>
      unfold validate_image_safety
      dsimp only
      rcases hp : parseJson (cleanResponse t) with _ | j
      · exact fun h => Bool.noConfusion h
      · cases j with
        | obj fields =>
          dsimp only
          by_cases hb : (getD fields "isSafe" (Json.bool true)).pyTruthy
          · rw [if_pos hb]
            exact fun _ => rfl
          · rw [if_neg hb]
            intro h
            exact absurd h (by simpa using hb)
        | null => exact fun h => Bool.noConfusion h
        | bool b => exact fun h => Bool.noConfusion h
        | num n => exact fun h => Bool.noConfusion h
        | str s => exact fun h => Bool.noConfusion h
        | arr xs => exact fun h => Bool.noConfusion h

/-- C2, witness: the amended invariant at a concrete safe verdict of each
tool. -/
theorem claim2_amended_witness :
    (check_content_safety (ModelOutcome.ok "\x7b\"isSafe\": true\x7d")).isSafe.pyTruthy = true ∧
    (check_content_safety (ModelOutcome.ok "\x7b\"isSafe\": true\x7d")).alertMessage = Json.null ∧
    (validate_image_safety (ImageEvalInput.response "\x7b\"isSafe\": true\x7d")).alertMessage =
      Json.null := by
  have h := claim2_amended_invariant (ModelOutcome.ok "\x7b\"isSafe\": true\x7d")
    (ImageEvalInput.response "\x7b\"isSafe\": true\x7d") "m"
  exact ⟨rfl, h.1 rfl, h.2.1 rfl⟩

/-! ## C3 — the total score is the sum of the clamped dimension scores -/

/-- The feedback builder never reads a `totalScore` field of the model's
response: prepending one changes nothing. -/
theorem buildWritingFeedback_ignores_totalScore (j : Json) (fields : List (String × Json)) :
    buildWritingFeedback (("totalScore", j) :: fields) = buildWritingFeedback fields := by
  have hf : ∀ (k : String), ("totalScore" == k) = false →
      ∀ d, getD (("totalScore", j) :: fields) k d = getD fields k d := by
    intro k hk d
    unfold getD
    rw [getField_cons_ne _ _ _ _ hk]
  have hdim : ∀ (dim : String), ("totalScore" == dim) = false →
      ∀ dflt, dimScore (("totalScore", j) :: fields) dim dflt = dimScore fields dim dflt := by
    intro dim hd dflt
    unfold dimScore
    rw [hf dim hd]
  have hdf : ∀ (dim : String), ("totalScore" == dim) = false →
      ∀ key dflt, dimField (("totalScore", j) :: fields) dim key dflt =
        dimField fields dim key dflt := by
    intro dim hd key dflt
    unfold dimField
    rw [hf dim hd]
  unfold buildWritingFeedback
  simp only [hdim "grammar" (by decide), hdim "spelling" (by decide),
      hdim "relevance" (by decide), hdim "creativity" (by decide),
      hdf "grammar" (by decide), hdf "spelling" (by decide),
      hdf "relevance" (by decide), hdf "creativity" (by decide),
      hf "strengths" (by decide), hf "areasForImprovement" (by decide),
      hf "generalComment" (by decide), hf "nextSteps" (by decide)]

/-- C3.  For every successful writing evaluation, each of the four dimension
scores is read with its dimension-specific default (grammar 15, spelling 18,
relevance 16, creativity 17) and clamped into `[0, 25]`; `totalScore` is
exactly the sum of the four clamped scores, hence lies in `[0, 100]`, and a
`totalScore` field supplied by the model is ignored. -/
theorem claim3_total_score_sum (fields : List (String × Json)) (fb : WritingFeedback)
    (h : buildWritingFeedback fields = some fb) :
    ∃ g s r c,
      dimScore fields "grammar" 15 = some g ∧
      dimScore fields "spelling" 18 = some s ∧
      dimScore fields "relevance" 16 = some r ∧
      dimScore fields "creativity" 17 = some c ∧
      fb.grammarScore = clamp25 g ∧
      fb.spellingScore = clamp25 s ∧
      fb.relevanceScore = clamp25 r ∧
      fb.creativityScore = clamp25 c ∧
      fb.totalScore = clamp25 g + clamp25 s + clamp25 r + clamp25 c ∧
      0 ≤ fb.totalScore ∧ fb.totalScore ≤ 100 ∧
      (∀ j, buildWritingFeedback (("totalScore", j) :: fields) = some fb) := by
  unfold buildWritingFeedback at h
  rcases hg : dimScore fields "grammar" 15 with _ | g
  · rw [hg] at h; exact absurd h (by simp)
  rw [hg] at h
  rcases hs : dimScore fields "spelling" 18 with _ | s
  · rw [hs] at h; exact absurd h (by simp)
  rw [hs] at h
  rcases hr : dimScore fields "relevance" 16 with _ | r
  · rw [hr] at h; exact absurd h (by simp)
  rw [hr] at h
  rcases hc : dimScore fields "creativity" 17 with _ | c
  · rw [hc] at h; exact absurd h (by simp)
  rw [hc] at h
  simp only [Option.pure_def, Option.bind_eq_bind, Option.some_bind, Option.some.injEq] at h
  refine ⟨g, s, r, c, rfl, rfl, rfl, rfl, ?_, ?_, ?_, ?_, ?_, ?_, ?_, ?_⟩
  · rw [← h]
  · rw [← h]
  · rw [← h]
  · rw [← h]
  · rw [← h]
  · rw [← h]
    have b1 := clamp25_bounds g
    have b2 := clamp25_bounds s
    have b3 := clamp25_bounds r
    have b4 := clamp25_bounds c
    dsimp only
    omega
  · rw [← h]
    have b1 := clamp25_bounds g
    have b2 := clamp25_bounds s
    have b3 := clamp25_bounds r
    have b4 := clamp25_bounds c
    dsimp only
    omega
  · intro j
    rw [buildWritingFeedback_ignores_totalScore]
    unfold buildWritingFeedback
    rw [hg, hs, hr, hc]
    simp only [Option.pure_def, Option.bind_eq_bind, Option.some_bind, Option.some.injEq]
    exact h

/-- C3, witness: a model response carrying no fields at all scores
`15 + 18 + 16 + 17 = 66`. -/
theorem claim3_witness :
    buildWritingFeedback [] = some
      { totalScore := 66, grammarScore := 15, spellingScore := 18,
        relevanceScore := 16, creativityScore := 17,
        grammarFeedback := Json.str "Good grammar overall",
        spellingFeedback := Json.str "Good spelling overall",
        relevanceFeedback := Json.str "Good relevance overall",
        creativityFeedback := Json.str "Good creativity overall",
        strengths := Json.arr [], areasForImprovement := Json.arr [],
        generalComment := Json.str
          "📈 Good work! You're making progress. With some practice, you'll improve even more.",
        nextSteps := Json.arr [] } ∧
    (∃ g s r c,
      dimScore [] "grammar" 15 = some g ∧
      dimScore [] "spelling" 18 = some s ∧
      dimScore [] "relevance" 16 = some r ∧
      dimScore [] "creativity" 17 = some c ∧
      ({ totalScore := 66, grammarScore := 15, spellingScore := 18,
         relevanceScore := 16, creativityScore := 17,
         grammarFeedback := Json.str "Good grammar overall",
         spellingFeedback := Json.str "Good spelling overall",
         relevanceFeedback := Json.str "Good relevance overall",
         creativityFeedback := Json.str "Good creativity overall",
         strengths := Json.arr [], areasForImprovement := Json.arr [],
         generalComment := Json.str
           "📈 Good work! You're making progress. With some practice, you'll improve even more.",
         nextSteps := Json.arr [] } : WritingFeedback).totalScore =
        clamp25 g + clamp25 s + clamp25 r + clamp25 c) := by
  refine ⟨rfl, ?_⟩
  obtain ⟨g, s, r, c, hg, hs, hr, hc, _, _, _, _, ht, _⟩ :=
    claim3_total_score_sum [] _ rfl
  exact ⟨g, s, r, c, hg, hs, hr, hc, ht⟩

/-! ## C4 — an unsafe verdict short-circuits the analyze-writing flow -/

/-- C4.  Whenever the text safety check of a submission returns
`isSafe = false`, `analyze_student_writing` returns the blocked dict
(`success=False`, `blocked=True` at the endpoint) and its result does not
depend on the scoring model's outcome — the scoring call is never made. -/
theorem claim4_unsafe_short_circuits (safetyO scoringO : ModelOutcome)
    (h : (check_content_safety safetyO).isSafe = Json.bool false) :
    analyze_student_writing safetyO scoringO =
      AnalyzeResult.blocked (check_content_safety safetyO)
        (check_content_safety safetyO).alertMessage
        (check_content_safety safetyO).recommendation ∧
    (analyze_writing_endpoint safetyO scoringO).success = false ∧
    (analyze_writing_endpoint safetyO scoringO).blocked = true ∧
    (∀ scoringO₂, analyze_student_writing safetyO scoringO =
      analyze_student_writing safetyO scoringO₂) := by
  have hT : (check_content_safety safetyO).isSafe.pyTruthy = false := by
    rw [h]; rfl
  have hb : ∀ o₂, analyze_student_writing safetyO o₂ =
      AnalyzeResult.blocked (check_content_safety safetyO)
        (check_content_safety safetyO).alertMessage
        (check_content_safety safetyO).recommendation := by
    intro o₂
    unfold analyze_student_writing
    dsimp only
    rw [if_pos (show (!(check_content_safety safetyO).isSafe.pyTruthy) = true by
      rw [hT]; decide)]
  refine ⟨hb scoringO, ?_, ?_, fun o₂ => (hb scoringO).trans (hb o₂).symm⟩
  · unfold analyze_writing_endpoint
    rw [hb scoringO]
  · unfold analyze_writing_endpoint
    rw [hb scoringO]

/-- C4, witness: a model verdict `\x7b"isSafe": false\x7d` blocks the
submission. -/
theorem claim4_witness :
    (check_content_safety (ModelOutcome.ok "\x7b\"isSafe\": false\x7d")).isSafe =
      Json.bool false ∧
    (analyze_writing_endpoint (ModelOutcome.ok "\x7b\"isSafe\": false\x7d")
      (ModelOutcome.ok "ignored")).blocked = true := by
  have h := claim4_unsafe_short_circuits (ModelOutcome.ok "\x7b\"isSafe\": false\x7d")
    (ModelOutcome.ok "ignored") rfl
  exact ⟨rfl, h.2.2.1⟩

/-! ## C5 — how a scoring failure is surfaced -/

/-- C5, counterexample.  The claim says a failed scoring step is surfaced by
the analyze-writing endpoint as a 500-class response carrying the error
message.  But for a safe submission whose scoring response is unparseable,
the endpoint answers with HTTP 200, `success=false`, `blocked=false`, and no
error message in the body. -/
theorem claim5_counterexample :
    (analyze_writing_endpoint (ModelOutcome.ok "\x7b\"isSafe\": true\x7d")
      (ModelOutcome.ok "not json")).status = 200 ∧
    (analyze_writing_endpoint (ModelOutcome.ok "\x7b\"isSafe\": true\x7d")
      (ModelOutcome.ok "not json")).status ≠ 500 ∧
    (analyze_writing_endpoint (ModelOutcome.ok "\x7b\"isSafe\": true\x7d")
      (ModelOutcome.ok "not json")).errorBody = none ∧
    (analyze_student_writing (ModelOutcome.ok "\x7b\"isSafe\": true\x7d")
      (ModelOutcome.ok "not json")).isFailed = true := by
  refine ⟨rfl, ?_, rfl, rfl⟩
  intro hcontra
  rw [show (analyze_writing_endpoint (ModelOutcome.ok "\x7b\"isSafe\": true\x7d")
      (ModelOutcome.ok "not json")).status = 200 from rfl] at hcontra
  exact absurd hcontra (by decide)

/-- C5, amended.  When the scoring step fails for a safe submission (raised
model call, unparseable or non-object response, or a bad dimension value),
`analyze_student_writing` returns the failure dict — `success=False` with an
error message and no substituted default feedback — and the endpoint
surfaces it as HTTP 200 with `success=false`, `blocked=false`, no score, no
feedback and no error message in the body (the 500 branch is unreachable
because the tool catches its own exceptions). -/
theorem claim5_amended_scoring_failure (safetyO scoringO : ModelOutcome)
    (hsafe : (check_content_safety safetyO).isSafe.pyTruthy = true)
    (hfail : scoringStepFails scoringO = true) :
    (analyze_student_writing safetyO scoringO).isFailed = true ∧
    (analyze_writing_endpoint safetyO scoringO).status = 200 ∧
    (analyze_writing_endpoint safetyO scoringO).success = false ∧
    (analyze_writing_endpoint safetyO scoringO).blocked = false ∧
    (analyze_writing_endpoint safetyO scoringO).errorBody = none ∧
    (analyze_writing_endpoint safetyO scoringO).score = none ∧
    (analyze_writing_endpoint safetyO scoringO).feedback = none := by
  have hfailed : (analyze_student_writing safetyO scoringO).isFailed = true := by
    unfold analyze_student_writing
    dsimp only
    rw [if_neg (show ¬((!(check_content_safety safetyO).isSafe.pyTruthy) = true) by
      rw [hsafe]; decide)]
    unfold scoringStepFails at hfail
    cases scoringO with
    | err msg => rfl
    | ok t =>
      dsimp only at hfail ⊢
      rcases hp : parseJson (cleanResponse t) with _ | j
      · rfl
      · rw [hp] at hfail
        cases j with
        | obj fields =>
          dsimp only at hfail ⊢
          rcases hb : buildWritingFeedback fields with _ | fb
          · rfl
          · rw [hb] at hfail
            exact absurd hfail (by simp)
        | null => rfl
        | bool b => rfl
        | num n => rfl
        | str s => rfl
        | arr xs => rfl
  have hcase : ∃ e sr, analyze_student_writing safetyO scoringO =
      AnalyzeResult.failed e sr := by
    cases hres : analyze_student_writing safetyO scoringO with
    | blocked sr a r =>
      rw [hres] at hfailed
      exact Bool.noConfusion hfailed
    | scored sc fb sr =>
      rw [hres] at hfailed
      exact Bool.noConfusion hfailed
    | failed e sr => exact ⟨e, sr, rfl⟩
  obtain ⟨e, sr, hres⟩ := hcase
  refine ⟨hfailed, ?_, ?_, ?_, ?_, ?_, ?_⟩ <;>
    · unfold analyze_writing_endpoint
      rw [hres]

/-- C5, witness: the amended statement at a safe verdict and an unparseable
scoring response. -/
theorem claim5_witness :
    (check_content_safety (ModelOutcome.ok "\x7b\"isSafe\": true\x7d")).isSafe.pyTruthy = true ∧
    scoringStepFails (ModelOutcome.ok "not json") = true ∧
    (analyze_writing_endpoint (ModelOutcome.ok "\x7b\"isSafe\": true\x7d")
      (ModelOutcome.ok "not json")).success = false := by
  have h := claim5_amended_scoring_failure (ModelOutcome.ok "\x7b\"isSafe\": true\x7d")
    (ModelOutcome.ok "not json") rfl rfl
  exact ⟨rfl, rfl, h.2.2.1⟩

/-! ## C6 — failure policy of the image safety evaluation -/

/-- C6.  Every failing image safety evaluation — download failure, decode
failure, raised vision call, or unparseable response — produces a synthetic
verdict with `isSafe = false`, `riskLevel = "unknown"`,
`recommendation = "review"` and a non-`None` alert (fail-closed), in both
the tool (`validate_image_safety`) and the agent
(`ImageSafetyAgent.validate_image`). -/
theorem claim6_image_fail_closed (m t u : String)
    (ht : parseJson (cleanResponse t) = none)
    (hu : parseJson u = none) :
    failClosedShape (validate_image_safety (ImageEvalInput.downloadErr m)) ∧
    failClosedShape (validate_image_safety (ImageEvalInput.decodeErr m)) ∧
    failClosedShape (validate_image_safety (ImageEvalInput.modelErr m)) ∧
    failClosedShape (validate_image_safety (ImageEvalInput.response t)) ∧
    failClosedShape (ImageSafetyAgent.validateImage (ImageEvalInput.downloadErr m)) ∧
    failClosedShape (ImageSafetyAgent.validateImage (ImageEvalInput.decodeErr m)) ∧
    failClosedShape (ImageSafetyAgent.validateImage (ImageEvalInput.modelErr m)) ∧
    failClosedShape (ImageSafetyAgent.validateImage (ImageEvalInput.response u)) := by
  have h4 : validate_image_safety (ImageEvalInput.response t) = imageSafetyJsonErrorVerdict := by
    unfold validate_image_safety
    dsimp only
    rw [ht]
  refine ⟨imageGeneric_failClosed m, imageGeneric_failClosed m, imageGeneric_failClosed m,
    ?_, createErrorResponse_failClosed _, createErrorResponse_failClosed _,
    createErrorResponse_failClosed _, ?_⟩
  · rw [h4]
    exact imageJsonError_failClosed
  · refine validateImage_failClosed _ ?_
    unfold imageEvalFails
    dsimp only
    rw [hu]

/-- C6, witness: the statement at a failed download and an unparseable
vision response. -/
theorem claim6_witness :
    parseJson (cleanResponse "not json") = none ∧
    parseJson "not json" = none ∧
    failClosedShape (validate_image_safety (ImageEvalInput.downloadErr "boom")) ∧
    failClosedShape (ImageSafetyAgent.validateImage (ImageEvalInput.response "not json")) := by
  have h := claim6_image_fail_closed "boom" "not json" "not json" rfl rfl
  exact ⟨rfl, rfl, h.1, h.2.2.2.2.2.2.2⟩

/-! ## C7 — the JSON-contract extraction step -/

/-- C7, counterexample.  The claim says the extraction strips a leading
fence "optionally tagged with a language" and then parses.  But only the
exact tag `json` is recognised: the same payload succeeds under a
```` ```json ```` fence and fails under a ```` ```python ```` fence, whose
tag text survives the cleanup and breaks the parse. -/
theorem claim7_counterexample :
    extractJson "```python\n\x7b\"a\": 1\x7d\n```" = ExtractOutcome.parseError ∧
    extractJson "```json\n\x7b\"a\": 1\x7d\n```" =
      ExtractOutcome.okObj [("a", Json.num 1)] :=
  ⟨rfl, rfl⟩

/-- C7, amended.  The extraction strips at most one layer of code fence,
recognising the opening fence only bare or tagged exactly `json` (any other
language tag keeps its tag text, so parsing then fails); the cleaned text
must itself parse — a success returns exactly what the cleaned text parses
to, with no repair — and both a parse failure and a parsed non-object are
failures. -/
theorem claim7_amended_extraction (raw : String) (fields : List (String × Json)) :
    (extractJson raw = ExtractOutcome.okObj fields →
      parseJson (cleanResponse raw) = some (Json.obj fields)) ∧
    (parseJson (cleanResponse raw) = none →
      extractJson raw = ExtractOutcome.parseError) ∧
    (∀ j, parseJson (cleanResponse raw) = some j → j.isObj = false →
      extractJson raw = ExtractOutcome.notObject j) ∧
    extractJson "```json\n\x7b\"a\": 1\x7d\n```" = ExtractOutcome.okObj [("a", Json.num 1)] ∧
    extractJson "\x7b\"a\": 1\x7d" = ExtractOutcome.okObj [("a", Json.num 1)] ∧
    extractJson "not json" = ExtractOutcome.parseError ∧
    extractJson "42" = ExtractOutcome.notObject (Json.num 42) ∧
    extractJson "``````json\n\x7b\"a\": 1\x7d\n``````" = ExtractOutcome.parseError := by
  refine ⟨?_, ?_, ?_, rfl, rfl, rfl, rfl, rfl⟩
  · intro h
    unfold extractJson at h
    rcases hp : parseJson (cleanResponse raw) with _ | j
    · rw [hp] at h
      exact ExtractOutcome.noConfusion h
    · rw [hp] at h
      cases j with
      | obj f2 =>
        dsimp only at h
        injection h with hf
        rw [hf]
      | null => exact ExtractOutcome.noConfusion h
      | bool b => exact ExtractOutcome.noConfusion h
      | num n => exact ExtractOutcome.noConfusion h
      | str s => exact ExtractOutcome.noConfusion h
      | arr xs => exact ExtractOutcome.noConfusion h
  · intro h
    unfold extractJson
    rw [h]
  · intro j hp hobj
    unfold extractJson
    rw [hp]
    cases j with
    | obj f2 => exact Bool.noConfusion hobj
    | null => rfl
    | bool b => rfl
    | num n => rfl
    | str s => rfl
    | arr xs => rfl

/-- C7, witness: the amended statement at the fenced payload of the spec's
round-trip property. -/
theorem claim7_witness :
    extractJson "```json\n\x7b\"a\": 1\x7d\n```" = ExtractOutcome.okObj [("a", Json.num 1)] ∧
    parseJson (cleanResponse "```json\n\x7b\"a\": 1\x7d\n```") =
      some (Json.obj [("a", Json.num 1)]) := by
  have h := claim7_amended_extraction "```json\n\x7b\"a\": 1\x7d\n```" [("a", Json.num 1)]
  exact ⟨rfl, h.1 rfl⟩

/-! ## C8 — prompt generation never substitutes a placeholder -/

/-- C8, counterexample.  The claim says every generator raises a hard error
when the expected prompt field is not a string.  But the tool path only
rejects falsy and unsized values: a JSON list in the `prompt` field flows
straight into the downstream image-generation call. -/
theorem claim8_counterexample :
    generate_image_from_writing
      (ModelOutcome.ok "\x7b\"prompt\": [\"a dragon\"]\x7d") =
      GenDispatch.calledGen (Json.arr [Json.str "a dragon"]) ∧
    (∀ s, Json.arr [Json.str "a dragon"] ≠ Json.str s) :=
  ⟨rfl, fun _ h => Json.noConfusion h⟩

/-- C8, amended.  The agent generators (`VisualMediaAgent`) enforce the full
contract: a returned prompt is a non-empty string taken verbatim from the
response, and an absent, empty or non-string field raises.  The tool
generators raise before the generation call for an absent or empty (falsy)
prompt — never substituting one — but a truthy non-string JSON value with a
length (list, dict) is passed through to the generation call unchecked. -/
theorem claim8_amended_prompt_contract (o : ModelOutcome) (s : String)
    (fields : List (String × Json)) (p : Json) :
    (VisualMediaAgent.generateImagePrompt o = Except.ok s → s ≠ "") ∧
    (VisualMediaAgent.generateVideoPrompt o = Except.ok s → s ≠ "") ∧
    (parseJson (LlmAgent.run o) = some (Json.obj fields) →
      nonStringOrEmpty (getD fields "prompt" (Json.str "")) = true →
      ∃ e, VisualMediaAgent.generateImagePrompt o = Except.error e) ∧
    (parseJson (LlmAgent.run o) = some (Json.obj fields) →
      nonStringOrEmpty (getD fields "videoActionPrompt" (Json.str "")) = true →
      ∃ e, VisualMediaAgent.generateVideoPrompt o = Except.error e) ∧
    (toolPromptField "prompt" o = Except.ok p → p.pyTruthy = false →
      generate_image_from_writing o =
        GenDispatch.failedBeforeGen "Failed to generate image prompt") ∧
    (toolPromptField "videoActionPrompt" o = Except.ok p → p.pyTruthy = false →
      generate_video_from_writing o =
        GenDispatch.failedBeforeGen "Failed to generate video prompt") ∧
    (generate_image_from_writing o = GenDispatch.calledGen p →
      toolPromptField "prompt" o = Except.ok p ∧ p.pyTruthy = true) := by
  have hagentNE : ∀ key, VisualMediaAgent.extractPromptField key o = Except.ok s →
      s ≠ "" := by
    intro key h hs
    subst hs
    unfold VisualMediaAgent.extractPromptField at h
    rcases hp : parseJson (LlmAgent.run o) with _ | j
    · rw [hp] at h
      exact Except.noConfusion h
    · rw [hp] at h
      cases j with
      | obj f =>
        dsimp only at h
        by_cases hc :
            (!(getD f "success" (Json.bool true)).pyTruthy || hasKey f "error") = true
        · rw [if_pos hc] at h
          exact Except.noConfusion h
        · rw [if_neg hc] at h
          rcases hv : getD f key (Json.str "") with _ | b | n | s2 | xs | f2 <;> rw [hv] at h
          · exact Except.noConfusion h
          · exact Except.noConfusion h
          · exact Except.noConfusion h
          · dsimp only at h
            by_cases hs2 : s2 = ""
            · rw [if_pos hs2] at h
              exact Except.noConfusion h
            · rw [if_neg hs2] at h
              injection h with h2
              exact hs2 h2
          · exact Except.noConfusion h
          · exact Except.noConfusion h
      | null => exact Except.noConfusion h
      | bool b => exact Except.noConfusion h
      | num n => exact Except.noConfusion h
      | str s2 => exact Except.noConfusion h
      | arr xs => exact Except.noConfusion h
  have hagentBad : ∀ key, parseJson (LlmAgent.run o) = some (Json.obj fields) →
      nonStringOrEmpty (getD fields key (Json.str "")) = true →
      ∃ e, VisualMediaAgent.extractPromptField key o = Except.error e := by
    intro key hp hbad
    unfold VisualMediaAgent.extractPromptField
    rw [hp]
    dsimp only
    by_cases hc :
        (!(getD fields "success" (Json.bool true)).pyTruthy || hasKey fields "error") = true
    · rw [if_pos hc]
      exact ⟨_, rfl⟩
    · rw [if_neg hc]
      rcases hv : getD fields key (Json.str "") with _ | b | n | s2 | xs | f2 <;>
        rw [hv] at hbad
      · exact ⟨_, rfl⟩
      · exact ⟨_, rfl⟩
      · exact ⟨_, rfl⟩
      · dsimp only
        rw [if_pos (show s2 = "" from eq_of_beq hbad)]
        exact ⟨_, rfl⟩
      · exact ⟨_, rfl⟩
      · exact ⟨_, rfl⟩
  have htoolFalsy : ∀ key msg, toolPromptField key o = Except.ok p →
      p.pyTruthy = false →
      genDispatch msg (toolPromptField key o) = GenDispatch.failedBeforeGen msg := by
    intro key msg h hfalse
    unfold genDispatch
    rw [h]
    dsimp only
    rw [if_pos (show (!p.pyTruthy) = true by rw [hfalse]; rfl)]
  refine ⟨hagentNE "prompt", hagentNE "videoActionPrompt",
    fun hp hbad => hagentBad "prompt" hp hbad,
    fun hp hbad => hagentBad "videoActionPrompt" hp hbad,
    htoolFalsy "prompt" "Failed to generate image prompt",
    htoolFalsy "videoActionPrompt" "Failed to generate video prompt", ?_⟩
  · intro h
    unfold generate_image_from_writing genDispatch at h
    rcases he : toolPromptField "prompt" o with e | q <;> rw [he] at h
    · exact GenDispatch.noConfusion h
    · dsimp only at h
      by_cases hq : (!q.pyTruthy) = true
      · rw [if_pos hq] at h
        exact GenDispatch.noConfusion h
      · rw [if_neg hq] at h
        rcases hl : q.pyLen with _ | n <;> rw [hl] at h
        · exact GenDispatch.noConfusion h
        · injection h with h2
          subst h2
          refine ⟨rfl, ?_⟩
          cases hqt : q.pyTruthy with
          | false => rw [hqt] at hq; exact absurd rfl hq
          | true => rfl

/-- C8, witness: a response whose `prompt` field is the number `5` — truthy
but not a string — is rejected by the agent generator. -/
theorem claim8_witness :
    parseJson (LlmAgent.run (ModelOutcome.ok "\x7b\"prompt\": 5\x7d")) =
      some (Json.obj [("prompt", Json.num 5)]) ∧
    nonStringOrEmpty (getD [("prompt", Json.num 5)] "prompt" (Json.str "")) = true ∧
    (∃ e, VisualMediaAgent.generateImagePrompt (ModelOutcome.ok "\x7b\"prompt\": 5\x7d") =
      Except.error e) := by
  have h := claim8_amended_prompt_contract (ModelOutcome.ok "\x7b\"prompt\": 5\x7d") "s"
    [("prompt", Json.num 5)] Json.null
  exact ⟨rfl, rfl, h.2.2.1 rfl rfl⟩

/-! ## C9 — the batch image evaluation -/

/-- C9, counterexample.  The claim says the batch always returns a result
list of the input's length.  But when one successful per-image verdict
carries a non-sized `issues` value, the aggregation's `len` raises and the
batch falls into its own `except` branch, returning no results list at
all. -/
theorem claim9_counterexample :
    validate_image_batch
      [ImageEvalInput.response "\x7b\"isSafe\": true, \"issues\": 5\x7d"] =
      BatchResult.errored "TypeError" ∧
    (validate_image_batch
      [ImageEvalInput.response "\x7b\"isSafe\": true, \"issues\": 5\x7d"]).resultsList =
      none :=
  ⟨rfl, rfl⟩

/-- C9, amended.  Provided every per-image verdict's `issues` value has a
length (as on every error path, whose `issues` is `[]`), the batch returns
the per-image verdicts in input order and of the input's length, with
`allSafe` the conjunction of `isSafe`, `flaggedImages` the count of unsafe
verdicts and `totalIssues` the issue-length sum; a failing evaluation
yields a fail-closed verdict at its own position without stopping the rest.
If some verdict's `issues` is unsized, the aggregation raises and the batch
returns an error dict with no results list. -/
theorem claim9_amended_batch (inputs : List ImageEvalInput) (totalIssues : Nat)
    (h : sumIssueLens (inputs.map ImageSafetyAgent.validateImage) = some totalIssues) :
    validate_image_batch inputs =
      BatchResult.ok
        ((inputs.map ImageSafetyAgent.validateImage).all (fun r => r.isSafe.pyTruthy))
        inputs.length
        ((inputs.map ImageSafetyAgent.validateImage).countP (fun r => !r.isSafe.pyTruthy))
        totalIssues
        (inputs.map ImageSafetyAgent.validateImage) ∧
    (validate_image_batch inputs).resultsList =
      some (inputs.map ImageSafetyAgent.validateImage) ∧
    (inputs.map ImageSafetyAgent.validateImage).length = inputs.length ∧
    (∀ (i : Nat) (hi : i < inputs.length),
      (inputs.map ImageSafetyAgent.validateImage).get ⟨i, by simpa using hi⟩ =
        ImageSafetyAgent.validateImage (inputs.get ⟨i, hi⟩)) ∧
    (∀ (i : Nat) (hi : i < inputs.length),
      imageEvalFails (inputs.get ⟨i, hi⟩) = true →
      failClosedShape
        ((inputs.map ImageSafetyAgent.validateImage).get ⟨i, by simpa using hi⟩)) := by
  have hb : validate_image_batch inputs =
      BatchResult.ok
        ((inputs.map ImageSafetyAgent.validateImage).all (fun r => r.isSafe.pyTruthy))
        inputs.length
        ((inputs.map ImageSafetyAgent.validateImage).countP (fun r => !r.isSafe.pyTruthy))
        totalIssues
        (inputs.map ImageSafetyAgent.validateImage) := by
    unfold validate_image_batch
    dsimp only
    rw [h]
  have hget : ∀ (i : Nat) (hi : i < inputs.length),
      (inputs.map ImageSafetyAgent.validateImage).get ⟨i, by simpa using hi⟩ =
        ImageSafetyAgent.validateImage (inputs.get ⟨i, hi⟩) := by
    intro i hi
    simp
  refine ⟨hb, ?_, by simp, hget, ?_⟩
  · rw [hb]
    rfl
  · intro i hi hfail
    rw [hget i hi]
    exact validateImage_failClosed _ hfail

/-- C9, witness: a two-element batch whose second fetch fails keeps both
positions, the failing one fail-closed. -/
theorem claim9_witness :
    sumIssueLens
      ([ImageEvalInput.response "\x7b\"isSafe\": true, \"issues\": []\x7d",
        ImageEvalInput.downloadErr "404"].map ImageSafetyAgent.validateImage) =
      some 0 ∧
    (validate_image_batch
      [ImageEvalInput.response "\x7b\"isSafe\": true, \"issues\": []\x7d",
       ImageEvalInput.downloadErr "404"]).resultsList =
      some ([ImageEvalInput.response "\x7b\"isSafe\": true, \"issues\": []\x7d",
        ImageEvalInput.downloadErr "404"].map ImageSafetyAgent.validateImage) ∧
    imageEvalFails (ImageEvalInput.downloadErr "404") = true ∧
    failClosedShape
      (([ImageEvalInput.response "\x7b\"isSafe\": true, \"issues\": []\x7d",
        ImageEvalInput.downloadErr "404"].map ImageSafetyAgent.validateImage).get
        ⟨1, by decide⟩) := by
  have h := claim9_amended_batch
    [ImageEvalInput.response "\x7b\"isSafe\": true, \"issues\": []\x7d",
     ImageEvalInput.downloadErr "404"] 0 rfl
  exact ⟨rfl, h.2.1, rfl, h.2.2.2.2 1 (by decide) rfl⟩

/-! ## C10 — the scene-focus selection -/

/-- C10.  The selection `scene_descriptions[min(image_index - 1, 5)]` is
total and matches 1-based clamped indexing only for `image_index ≥ 1`; for
`image_index = 0` it yields the last description, "a magical or special
object mentioned", not the first; for `image_index` in `[-5, 0]` it indexes
from the end of the list by Python negative indexing; and for
`image_index ≤ -6` it raises `IndexError` instead of returning a scene. -/
theorem claim10_scene_indexing (i : Int) :
    (1 ≤ i → sceneFocus i = scene_descriptions.get? (min (i - 1) 5).toNat ∧
      (sceneFocus i).isSome = true) ∧
    sceneFocus 0 = some "a magical or special object mentioned" ∧
    (-5 ≤ i → i ≤ 0 → sceneFocus i = scene_descriptions.get? (i + 5).toNat) ∧
    (i ≤ -6 → sceneFocus i = none) := by
  have hL : (scene_descriptions.length : Int) = 6 := rfl
  have hall : ∀ n, n < 6 → (scene_descriptions.get? n).isSome = true := by decide
  refine ⟨?_, rfl, ?_, ?_⟩
  · intro h1
    have heq : sceneFocus i = scene_descriptions.get? (min (i - 1) 5).toNat := by
      unfold sceneFocus pyListGet
      rw [hL]
      rw [if_pos (show 0 ≤ min (i - 1) 5 ∧ min (i - 1) 5 < 6 by omega)]
    refine ⟨heq, ?_⟩
    rw [heq]
    exact hall _ (by omega)
  · intro h5 h0
    have hmin : min (i - 1) 5 = i - 1 := by omega
    unfold sceneFocus pyListGet
    rw [hL, hmin]
    rw [if_neg (show ¬(0 ≤ i - 1 ∧ i - 1 < 6) by omega)]
    rw [if_pos (show -6 ≤ i - 1 ∧ i - 1 < 0 by omega)]
    have harg : (i - 1 + 6).toNat = (i + 5).toNat := by omega
    rw [harg]
  · intro h6
    have hmin : min (i - 1) 5 = i - 1 := by omega
    unfold sceneFocus pyListGet
    rw [hL, hmin]
    rw [if_neg (show ¬(0 ≤ i - 1 ∧ i - 1 < 6) by omega)]
    rw [if_neg (show ¬(-6 ≤ i - 1 ∧ i - 1 < 0) by omega)]

/-- C10, witness: the statement at `image_index = 7`, `-2` and `-10`. -/
theorem claim10_witness :
    (1 ≤ (7 : Int) ∧ sceneFocus 7 = some "a magical or special object mentioned") ∧
    (-5 ≤ (-2 : Int) ∧ (-2 : Int) ≤ 0 ∧
      sceneFocus (-2) = some "the resolution or ending") ∧
    ((-10 : Int) ≤ -6 ∧ sceneFocus (-10) = none) := by
  have h7 := (claim10_scene_indexing 7).1 (by decide)
  have h2 := (claim10_scene_indexing (-2)).2.2.1 (by decide) (by decide)
  have h10 := (claim10_scene_indexing (-10)).2.2.2 (by decide)
  refine ⟨⟨by decide, ?_⟩, ⟨by decide, by decide, ?_⟩, ⟨by decide, h10⟩⟩
  · rw [h7.1]
    rfl
  · rw [h2]
    rfl

end FunWriting
